import Mathlib

/-!
Shallow embedding of the LUCT Reporting System backend (server.js).

The hosted database is modelled as explicit lists of rows; each HTTP handler
becomes a pure function from the store (and the authenticated caller decoded
from the bearer token) to a result, returning the possibly-updated store.
JavaScript truthiness on request-body fields is modelled explicitly
(absent/empty string and absent/zero number are falsy), and the JS pattern
`a || b` on strings is `jsOr`.
-/

namespace Server

/-- Result of an HTTP handler: success payload or an error status with an
`error` message, as in `res.status(s).json(\x7b error: msg \x7d)`. -/
inductive HResult (α : Type) where
  | ok : α → HResult α
  | err : Nat → String → HResult α
  deriving DecidableEq, Repr

/-- Identity decoded from the JWT: `\x7b id, role, name, email \x7d`
(see the token payload built at login). -/
structure Caller where
  id : Nat
  role : String
  name : String
  email : String
  deriving DecidableEq, Repr

/-- A row of the `users` table. -/
structure UserRow where
  user_id : Nat
  name : String
  email : String
  password : String
  role : String
  deriving DecidableEq, Repr

/-- A row of the `classes` table. -/
structure ClassRow where
  id : Nat
  class_name : String
  course_name : String
  course_code : String
  lecturer : String
  schedule : Option String
  venue : Option String
  capacity : Option Int
  status : String
  created_by : String
  created_at : Nat
  deriving DecidableEq, Repr

/-- The `classes(class_name, course_name, course_code, lecturer)` join
selected alongside a report. -/
structure ClassJoin where
  class_name : String
  course_name : String
  course_code : String
  lecturer : String
  deriving DecidableEq, Repr

/-- The `users!report_submitted_by_fkey(name)` join selected alongside a
report. -/
structure UserJoin where
  name : String
  deriving DecidableEq, Repr

/-- A fetched row of the `report` table with its two joins; a join is `none`
when the referenced row is missing (null join). -/
structure ReportRow where
  report_id : Nat
  class_id : Int
  week : Int
  date : String
  topic : String
  learning_outcomes : Option String
  recommendations : Option String
  actual_students : Int
  submitted_by : Nat
  created_at : Nat
  classes : Option ClassJoin
  users : Option UserJoin
  deriving DecidableEq, Repr

/-- The fixed public report schema produced by the transform blocks of
GET /reports, POST /reports, PUT /reports/:id and GET /reports/:id. -/
structure TransformedReport where
  id : Nat
  faculty_name : String
  class_name : String
  class_id : Int
  week_of_reporting : String
  date_of_lecture : String
  course_name : String
  course_code : String
  lecturer_name : String
  actual_students_present : Int
  total_registered_students : Nat
  venue : String
  scheduled_time : String
  topic_taught : String
  learning_outcomes : Option String
  recommendations : Option String
  status : String
  feedback : String
  created_by : Nat
  created_at : Nat
  deriving DecidableEq, Repr

/-- JavaScript truthiness of an optional request-body string:
`undefined` and `""` are falsy. -/
def truthyStr : Option String → Bool
  | none => false
  | some s => s != ""

/-- JavaScript truthiness of an optional request-body number:
`undefined` and `0` are falsy. -/
def truthyInt : Option Int → Bool
  | none => false
  | some n => n != 0

/-- JS `v || d` for an optionally-present string `v`:
falls back to `d` when `v` is `undefined` or `""`. -/
def jsOr (v : Option String) (d : String) : String :=
  match v with
  | none => d
  | some s => if s = "" then d else s

/-- JS `v || null` for an optionally-present string `v`. -/
def jsOrNull (v : Option String) : Option String :=
  match v with
  | none => none
  | some s => if s = "" then none else some s

/-- Supabase `.single()`: succeeds exactly when the filtered result has one
row, errors otherwise. -/
def single {α : Type} : List α → Except Unit α
  | [x] => .ok x
  | _ => .error ()

/-- The report transform block shared verbatim by GET /reports,
POST /reports and GET /reports/:id (`feedback` is the literal `""` there). -/
def transformReport (report : ReportRow) : TransformedReport :=
  { id := report.report_id
    faculty_name := "Faculty of ICT"
    class_name := jsOr (report.classes.map (fun c => c.class_name)) "Unknown Class"
    class_id := report.class_id
    week_of_reporting := "Week " ++ toString report.week
    date_of_lecture := report.date
    course_name := jsOr (report.classes.map (fun c => c.course_name)) "Unknown Course"
    course_code := jsOr (report.classes.map (fun c => c.course_code)) "N/A"
    lecturer_name :=
      jsOr (report.classes.map (fun c => c.lecturer))
        (jsOr (report.users.map (fun u => u.name)) "Unknown Lecturer")
    actual_students_present := report.actual_students
    total_registered_students := 50
    venue := "Room 101"
    scheduled_time := "10:00"
    topic_taught := report.topic
    learning_outcomes := report.learning_outcomes
    recommendations := report.recommendations
    status := "submitted"
    feedback := ""
    created_by := report.submitted_by
    created_at := report.created_at }

/-- The transform block of PUT /reports/:id: identical to `transformReport`
except `feedback := feedback || ""` from the request body. -/
def transformReportFeedback (feedback : Option String) (data : ReportRow) :
    TransformedReport :=
  { id := data.report_id
    faculty_name := "Faculty of ICT"
    class_name := jsOr (data.classes.map (fun c => c.class_name)) "Unknown Class"
    class_id := data.class_id
    week_of_reporting := "Week " ++ toString data.week
    date_of_lecture := data.date
    course_name := jsOr (data.classes.map (fun c => c.course_name)) "Unknown Course"
    course_code := jsOr (data.classes.map (fun c => c.course_code)) "N/A"
    lecturer_name :=
      jsOr (data.classes.map (fun c => c.lecturer))
        (jsOr (data.users.map (fun u => u.name)) "Unknown Lecturer")
    actual_students_present := data.actual_students
    total_registered_students := 50
    venue := "Room 101"
    scheduled_time := "10:00"
    topic_taught := data.topic
    learning_outcomes := data.learning_outcomes
    recommendations := data.recommendations
    status := "submitted"
    feedback := jsOr feedback ""
    created_by := data.submitted_by
    created_at := data.created_at }

/-- `.order("created_at", \x7b ascending: false \x7d)`: insert one row into a
list already sorted by `created_at` descending. -/
def insertByCreatedAtDesc (r : ReportRow) : List ReportRow → List ReportRow
  | [] => [r]
  | x :: xs =>
    if r.created_at ≥ x.created_at then r :: x :: xs
    else x :: insertByCreatedAtDesc r xs

/-- Sort report rows by `created_at` descending (insertion sort). -/
def orderByCreatedAtDesc : List ReportRow → List ReportRow
  | [] => []
  | r :: rs => insertByCreatedAtDesc r (orderByCreatedAtDesc rs)

/-- GET /reports: fetch all reports with joins, newest first; lecturers only
see rows with `submitted_by` equal to their own id; each row is transformed. -/
def listReports (db : List ReportRow) (caller : Caller) : List TransformedReport :=
  let ordered := orderByCreatedAtDesc db
  let rows :=
    if caller.role = "lecturer" then
      ordered.filter (fun r => r.submitted_by = caller.id)
    else ordered
  rows.map transformReport

/-- GET /reports/:id: `.single()` errors when the report is absent, and that
error is thrown and caught as a 500; a lecturer who is not the submitter
gets 403; otherwise the transformed report. -/
def getReport (db : List ReportRow) (caller : Caller) (reportId : Nat) :
    HResult TransformedReport :=
  match single (db.filter (fun r => r.report_id = reportId)) with
  | .error _ => .err 500 "Failed to fetch report"
  | .ok data =>
    if caller.role = "lecturer" ∧ data.submitted_by ≠ caller.id then
      .err 403 "Not authorized to view this report"
    else .ok (transformReport data)

/-- PUT /reports/:id: PRL-only; re-fetches the report (no write is issued to
the store) and returns it transformed with the supplied feedback attached
only in the response payload. A `.single()` error is caught as a 500. -/
def updateReportFeedback (db : List ReportRow) (caller : Caller)
    (reportId : Nat) (feedback : Option String) :
    HResult TransformedReport × List ReportRow :=
  if caller.role ≠ "prl" then
    (.err 403 "Not authorized to update reports", db)
  else
    match single (db.filter (fun r => r.report_id = reportId)) with
    | .error _ => (.err 500 "Failed to update report", db)
    | .ok data => (.ok (transformReportFeedback feedback data), db)

/-- Request body of POST /reports. -/
structure ReportBody where
  class_id : Option Int
  week : Option Int
  date : Option String
  topic : Option String
  learning_outcomes : Option String
  recommendations : Option String
  actual_students : Option Int
  deriving DecidableEq, Repr

/-- `toClassJoin c` is the `classes(...)` join projection of a class row. -/
def toClassJoin (c : ClassRow) : ClassJoin :=
  { class_name := c.class_name
    course_name := c.course_name
    course_code := c.course_code
    lecturer := c.lecturer }

/-- POST /reports: validates the five required fields by JS truthiness, then
inserts a row with `submitted_by := caller.id` (the store assigns `newId` and
`createdAt`), selecting it back with its class and submitter joins, and
returns the transformed row. -/
def createReport (classesDb : List ClassRow) (usersDb : List UserRow)
    (db : List ReportRow) (newId : Nat) (createdAt : Nat) (caller : Caller)
    (body : ReportBody) : HResult TransformedReport × List ReportRow :=
  if ¬(truthyInt body.class_id && truthyInt body.week && truthyStr body.date
        && truthyStr body.topic && truthyInt body.actual_students) then
    (.err 400 "Class, week, date, topic, and actual students are required", db)
  else
    let row : ReportRow :=
      { report_id := newId
        class_id := body.class_id.getD 0
        week := body.week.getD 0
        date := body.date.getD ""
        topic := body.topic.getD ""
        learning_outcomes := jsOrNull body.learning_outcomes
        recommendations := jsOrNull body.recommendations
        actual_students := body.actual_students.getD 0
        submitted_by := caller.id
        created_at := createdAt
        classes :=
          (classesDb.find? (fun c => (c.id : Int) = body.class_id.getD 0)).map
            toClassJoin
        users :=
          (usersDb.find? (fun u => u.user_id = caller.id)).map
            (fun u => { name := u.name }) }
    (.ok (transformReport row), db ++ [row])

/-- Partial-update body of PUT /classes/:id: every field present in the
request body, `created_by` included, is passed to `.update(updates)`. -/
structure ClassPatch where
  class_name : Option String
  course_name : Option String
  course_code : Option String
  lecturer : Option String
  schedule : Option String
  venue : Option String
  capacity : Option Int
  status : Option String
  created_by : Option String
  deriving DecidableEq, Repr

/-- Apply a patch to a stored class row: fields present in the body replace
the stored ones, absent fields are kept. -/
def applyClassPatch (c : ClassRow) (p : ClassPatch) : ClassRow :=
  { c with
    class_name := p.class_name.getD c.class_name
    course_name := p.course_name.getD c.course_name
    course_code := p.course_code.getD c.course_code
    lecturer := p.lecturer.getD c.lecturer
    schedule := match p.schedule with | some v => some v | none => c.schedule
    venue := match p.venue with | some v => some v | none => c.venue
    capacity := match p.capacity with | some v => some v | none => c.capacity
    status := p.status.getD c.status
    created_by := p.created_by.getD c.created_by }

/-- PUT /classes/:id: 404 when the fetch fails; 403 unless the caller is a
"pl" or the recorded creator; otherwise applies the body verbatim as the
patch and returns the updated row. -/
def updateClass (db : List ClassRow) (caller : Caller) (classId : Nat)
    (updates : ClassPatch) : HResult (Option ClassRow) × List ClassRow :=
  match single (db.filter (fun c => c.id = classId)) with
  | .error _ => (.err 404 "Class not found", db)
  | .ok existingClass =>
    if caller.role ≠ "pl" ∧ existingClass.created_by ≠ caller.name then
      (.err 403 "Not authorized to edit this class", db)
    else
      let newDb := db.map (fun c => if c.id = classId then applyClassPatch c updates else c)
      (.ok ((newDb.filter (fun c => c.id = classId)).head?), newDb)

/-- DELETE /classes/:id: 404 when the fetch fails; 403 unless the caller is a
"pl" or the recorded creator; otherwise deletes the row. -/
def deleteClass (db : List ClassRow) (caller : Caller) (classId : Nat) :
    HResult String × List ClassRow :=
  match single (db.filter (fun c => c.id = classId)) with
  | .error _ => (.err 404 "Class not found", db)
  | .ok existingClass =>
    if caller.role ≠ "pl" ∧ existingClass.created_by ≠ caller.name then
      (.err 403 "Not authorized to delete this class", db)
    else
      (.ok "Class deleted successfully", db.filter (fun c => ¬ c.id = classId))

/-- Request body of POST /register. -/
structure RegisterBody where
  name : Option String
  email : Option String
  password : Option String
  role : Option String
  deriving DecidableEq, Repr

/-- JS `String.prototype.toLowerCase()`: lowercase character by character. -/
def toLowerString (s : String) : String := String.mk (s.data.map Char.toLower)

/-- The roles accepted at registration. -/
def allowedRoles : List String := ["student", "lecturer", "prl", "pl"]

/-- POST /register: all four fields required (JS truthiness); role must be
one of the allowed roles after lowercasing; a user with the same email makes
the request fail with 400 "User already exists" and no insert; otherwise the
new row (with the hashed password and lowercased role) is inserted. -/
def register (db : List UserRow) (hash : String → String) (newId : Nat)
    (body : RegisterBody) : HResult UserRow × List UserRow :=
  if ¬(truthyStr body.name && truthyStr body.email && truthyStr body.password
        && truthyStr body.role) then
    (.err 400 "All fields are required", db)
  else if ¬ allowedRoles.contains (toLowerString (body.role.getD "")) then
    (.err 400 "Invalid role selected", db)
  else
    match db.find? (fun u => u.email = body.email.getD "") with
    | some _ => (.err 400 "User already exists", db)
    | none =>
      let newUser : UserRow :=
        { user_id := newId
          name := body.name.getD ""
          email := body.email.getD ""
          password := hash (body.password.getD "")
          role := toLowerString (body.role.getD "") }
      (.ok newUser, db ++ [newUser])

/-- Request body of POST /login. -/
structure LoginBody where
  email : Option String
  password : Option String
  deriving DecidableEq, Repr

/-- Success payload of POST /login. -/
structure LoginResp where
  token : String
  id : Nat
  name : String
  email : String
  role : String
  deriving DecidableEq, Repr

/-- POST /login: both fields required; an unknown email and a wrong password
both answer 401 "Invalid credentials"; on success a signed token carrying
`\x7b id, role, name, email \x7d` is issued. `verify` is `bcrypt.compare`
and `sign` is `jwt.sign`, external primitives passed in as functions. -/
def login (db : List UserRow) (verify : String → String → Bool)
    (sign : Nat → String → String → String → String) (body : LoginBody) :
    HResult LoginResp :=
  if ¬(truthyStr body.email && truthyStr body.password) then
    .err 400 "Email and password required"
  else
    match db.find? (fun u => u.email = body.email.getD "") with
    | none => .err 401 "Invalid credentials"
    | some data =>
      if ¬ verify (body.password.getD "") data.password then
        .err 401 "Invalid credentials"
      else
        .ok { token := sign data.user_id data.role data.name data.email
              id := data.user_id
              name := data.name
              email := data.email
              role := data.role }

/-- Sample class join used in concrete instances. -/
def sampleClassJoin : ClassJoin :=
  { class_name := "CS101"
    course_name := "Computer Science"
    course_code := "CS1"
    lecturer := "Alice" }

/-- Sample report row submitted by user 7. -/
def sampleReportA : ReportRow :=
  { report_id := 1
    class_id := 2
    week := 3
    date := "2025-01-01"
    topic := "Intro"
    learning_outcomes := none
    recommendations := none
    actual_students := 30
    submitted_by := 7
    created_at := 10
    classes := some sampleClassJoin
    users := some { name := "Alice" } }

/-- Sample report row with both joins null. -/
def sampleNullReport : ReportRow :=
  { sampleReportA with classes := none, users := none }

/-- Sample lecturer caller (user 7, Alice). -/
def sampleLecturer : Caller :=
  { id := 7, role := "lecturer", name := "Alice", email := "alice@x.com" }

/-- Sample stored class created by Alice. -/
def sampleClass : ClassRow :=
  { id := 4
    class_name := "CS101"
    course_name := "Computer Science"
    course_code := "CS1"
    lecturer := "Alice"
    schedule := none
    venue := none
    capacity := some 40
    status := "active"
    created_by := "Alice"
    created_at := 5 }

/-- Sample user row for Alice. -/
def sampleUser : UserRow :=
  { user_id := 7, name := "Alice", email := "alice@x.com", password := "h", role := "lecturer" }

/-- A patch with no field present. -/
def emptyClassPatch : ClassPatch :=
  { class_name := none, course_name := none, course_code := none, lecturer := none,
    schedule := none, venue := none, capacity := none, status := none, created_by := none }

/-- A patch whose only field is an overwrite of `created_by`. -/
def takeoverPatch : ClassPatch :=
  { emptyClassPatch with created_by := some "Mallory" }

theorem single_singleton {α : Type} (x : α) : single [x] = .ok x := rfl

theorem single_nil {α : Type} : single ([] : List α) = .error () := rfl

theorem insertByCreatedAtDesc_perm (r : ReportRow) (l : List ReportRow) :
    List.Perm (insertByCreatedAtDesc r l) (r :: l) := by
  induction l with
  | nil => simp [insertByCreatedAtDesc]
  | cons x xs ih =>
    by_cases h : r.created_at ≥ x.created_at
    · simp [insertByCreatedAtDesc, h]
    · simp only [insertByCreatedAtDesc, if_neg h]
      exact (ih.cons x).trans (List.Perm.swap r x xs)

theorem orderByCreatedAtDesc_perm (l : List ReportRow) :
    List.Perm (orderByCreatedAtDesc l) l := by
  induction l with
  | nil => simp [orderByCreatedAtDesc]
  | cons r rs ih =>
    exact (insertByCreatedAtDesc_perm r (orderByCreatedAtDesc rs)).trans (ih.cons r)

theorem filter_id_map_patch (db : List ClassRow) (p : ClassPatch) (classId : Nat) :
    (db.map (fun x => if x.id = classId then applyClassPatch x p else x)).filter
        (fun x => x.id = classId) =
      (db.filter (fun x => x.id = classId)).map (fun x => applyClassPatch x p) := by
  induction db with
  | nil => rfl
  | cons a l ih =>
    have hid : (applyClassPatch a p).id = a.id := rfl
    by_cases h : a.id = classId
    · simp [List.filter_cons, h, hid, ih]
    · simp [List.filter_cons, h, hid, ih]

/-- Claim C1: in GET /reports, a caller with role "lecturer" only receives
rows whose `submitted_by` (returned as `created_by`) equals their own id;
any other role gets the full, unfiltered transformed list, so every stored
row appears in the response. -/
theorem listReports_lecturer_filter (db : List ReportRow) (caller : Caller) :
    (caller.role = "lecturer" →
      ∀ t ∈ listReports db caller, t.created_by = caller.id) ∧
    (caller.role ≠ "lecturer" →
      listReports db caller = (orderByCreatedAtDesc db).map transformReport ∧
      ∀ r ∈ db, transformReport r ∈ listReports db caller) := by
  constructor
  · intro hrole t ht
    simp only [listReports, hrole, if_true, List.mem_map, List.mem_filter] at ht
    obtain ⟨r, ⟨hmem, hsub⟩, rfl⟩ := ht
    simpa [transformReport] using hsub
  · intro hrole
    constructor
    · simp [listReports, hrole]
    · intro r hr
      have hmem : r ∈ orderByCreatedAtDesc db :=
        ((orderByCreatedAtDesc_perm db).mem_iff).2 hr
      simp only [listReports, hrole, if_neg, ite_false, List.mem_map]
      exact ⟨r, by simp [hrole, hmem], rfl⟩

/-- Witness for C1: the lecturer with id 7 receives a row whose `created_by`
is 7. -/
theorem listReports_lecturer_filter_witness :
    (transformReport sampleReportA).created_by = 7 :=
  (listReports_lecturer_filter [sampleReportA] sampleLecturer).1 rfl
    (transformReport sampleReportA) (by decide)

/-- Claim C5: report reshaping is total on rows with null joins and produces
the fallback labels "Unknown Class", "Unknown Course", "N/A" and
"Unknown Lecturer" when the joined data is missing. -/
theorem transformReport_null_join_fallbacks (r : ReportRow) :
    (r.classes = none →
      (transformReport r).class_name = "Unknown Class" ∧
      (transformReport r).course_name = "Unknown Course" ∧
      (transformReport r).course_code = "N/A") ∧
    (r.classes = none → r.users = none →
      (transformReport r).lecturer_name = "Unknown Lecturer") := by
  constructor
  · intro hc
    simp [transformReport, hc, jsOr]
  · intro hc hu
    simp [transformReport, hc, hu, jsOr]

/-- Witness for C5: a concrete report row with both joins null produces all
four fallback labels. -/
theorem transformReport_null_join_fallbacks_witness :
    (transformReport sampleNullReport).class_name = "Unknown Class" ∧
    (transformReport sampleNullReport).course_name = "Unknown Course" ∧
    (transformReport sampleNullReport).course_code = "N/A" ∧
    (transformReport sampleNullReport).lecturer_name = "Unknown Lecturer" := by
  obtain ⟨h1, h2⟩ := transformReport_null_join_fallbacks sampleNullReport
  obtain ⟨ha, hb, hc⟩ := h1 rfl
  exact ⟨ha, hb, hc, h2 rfl rfl⟩

/-- Counterexample to C2 as stated: fetching an absent report does not answer
NotFound (404); the `.single()` error is thrown and caught as a 500. -/
theorem getReport_absent_not_404 :
    getReport ([] : List ReportRow) ⟨1, "prl", "A", "a@x.com"⟩ 5 =
      .err 500 "Failed to fetch report" ∧
    (match getReport ([] : List ReportRow) ⟨1, "prl", "A", "a@x.com"⟩ 5 with
      | .ok _ => 200
      | .err s _ => s) ≠ 404 := by
  decide

/-- Claim C2 (amended): GET /reports/:id answers 403 when the caller is a
lecturer who is not the submitter of the stored report, and answers a
500 store failure (not 404) when no report with that id exists. -/
theorem getReport_forbidden_and_absent (db : List ReportRow) (caller : Caller)
    (reportId : Nat) (r : ReportRow) :
    (db.filter (fun x => x.report_id = reportId) = [r] →
      caller.role = "lecturer" → r.submitted_by ≠ caller.id →
      getReport db caller reportId = .err 403 "Not authorized to view this report") ∧
    (db.filter (fun x => x.report_id = reportId) = [] →
      getReport db caller reportId = .err 500 "Failed to fetch report") := by
  constructor
  · intro hex hrole hsub
    simp [getReport, hex, single_singleton, hrole, hsub]
  · intro hex
    simp [getReport, hex, single_nil]

/-- Witness for the amended C2: lecturer Bob (id 9) is refused the report
submitted by user 7. -/
theorem getReport_forbidden_and_absent_witness :
    getReport [sampleReportA] ⟨9, "lecturer", "Bob", "bob@x.com"⟩ 1 =
      .err 403 "Not authorized to view this report" :=
  (getReport_forbidden_and_absent [sampleReportA] ⟨9, "lecturer", "Bob", "bob@x.com"⟩
      1 sampleReportA).1 (by decide) rfl (by decide)

/-- Claim C3: for an existing class, a caller who is neither a "pl" nor the
recorded creator gets 403 from both PUT /classes/:id and DELETE /classes/:id,
and the store is returned unchanged (no update or delete is issued). -/
theorem classMutation_unauthorized (db : List ClassRow) (caller : Caller)
    (classId : Nat) (c : ClassRow) (p : ClassPatch)
    (hex : db.filter (fun x => x.id = classId) = [c])
    (hrole : caller.role ≠ "pl") (hname : c.created_by ≠ caller.name) :
    updateClass db caller classId p =
      (.err 403 "Not authorized to edit this class", db) ∧
    deleteClass db caller classId =
      (.err 403 "Not authorized to delete this class", db) := by
  constructor
  · simp [updateClass, hex, single_singleton, hrole, hname]
  · simp [deleteClass, hex, single_singleton, hrole, hname]

/-- Witness for C3: lecturer Bob can neither edit nor delete Alice's class,
and the store is unchanged. -/
theorem classMutation_unauthorized_witness :
    updateClass [sampleClass] ⟨9, "lecturer", "Bob", "bob@x.com"⟩ 4 emptyClassPatch =
      (.err 403 "Not authorized to edit this class", [sampleClass]) ∧
    deleteClass [sampleClass] ⟨9, "lecturer", "Bob", "bob@x.com"⟩ 4 =
      (.err 403 "Not authorized to delete this class", [sampleClass]) :=
  classMutation_unauthorized [sampleClass] ⟨9, "lecturer", "Bob", "bob@x.com"⟩ 4
    sampleClass emptyClassPatch (by decide) (by decide) (by decide)

/-- Claim C4: for a "prl" caller and an existing report, PUT /reports/:id
issues no write — the store comes back identical — and the payload is the
reshaped fetched report with `feedback` set to the supplied value
(empty string when none is supplied). -/
theorem updateReportFeedback_no_write (db : List ReportRow) (caller : Caller)
    (reportId : Nat) (feedback : Option String) (r : ReportRow)
    (hrole : caller.role = "prl")
    (hex : db.filter (fun x => x.report_id = reportId) = [r]) :
    updateReportFeedback db caller reportId feedback =
      (.ok { transformReport r with feedback := jsOr feedback "" }, db) := by
  have hshape : transformReportFeedback feedback r =
      { transformReport r with feedback := jsOr feedback "" } := rfl
  simp [updateReportFeedback, hrole, hex, single_singleton, hshape]

/-- Witness for C4: PRL Carol attaches "good" to report 1; the store is
unchanged and the payload carries the feedback. -/
theorem updateReportFeedback_no_write_witness :
    updateReportFeedback [sampleReportA] ⟨3, "prl", "Carol", "carol@x.com"⟩ 1
        (some "good") =
      (.ok { transformReport sampleReportA with feedback := jsOr (some "good") "" },
        [sampleReportA]) :=
  updateReportFeedback_no_write [sampleReportA] ⟨3, "prl", "Carol", "carol@x.com"⟩ 1
    (some "good") sampleReportA rfl (by decide)

/-- Claim C6: a registration whose email is already taken (with all fields
present and a valid role) fails with "User already exists" on HTTP 400 and
inserts no new user row. -/
theorem register_duplicate_email (db : List UserRow) (hash : String → String)
    (newId : Nat) (body : RegisterBody) (u : UserRow)
    (hname : truthyStr body.name = true) (hemail : truthyStr body.email = true)
    (hpass : truthyStr body.password = true) (hrole : truthyStr body.role = true)
    (hallowed : allowedRoles.contains (toLowerString (body.role.getD "")) = true)
    (hdup : db.find? (fun x => x.email = body.email.getD "") = some u) :
    register db hash newId body = (.err 400 "User already exists", db) := by
  have hmem : toLowerString (body.role.getD "") ∈ allowedRoles := by
    simpa using hallowed
  simp [register, hname, hemail, hpass, hrole, hmem, hdup]

/-- Witness for C6: registering Bob with Alice's email is refused with 400
and the users table is unchanged. -/
theorem register_duplicate_email_witness :
    register [sampleUser] (fun s => s) 8
      ⟨some "Bob", some "alice@x.com", some "pw", some "Lecturer"⟩ =
      (.err 400 "User already exists", [sampleUser]) :=
  register_duplicate_email [sampleUser] (fun s => s) 8
    ⟨some "Bob", some "alice@x.com", some "pw", some "Lecturer"⟩ sampleUser
    (by decide) (by decide) (by decide) (by decide) (by decide) (by decide)

/-- Claim C7: a login whose email is unknown and a login whose email exists
but whose password hash does not match answer the same 401 response with the
same undifferentiated "Invalid credentials" message. -/
theorem login_undifferentiated (db1 db2 : List UserRow)
    (v1 v2 : String → String → Bool)
    (s1 s2 : Nat → String → String → String → String)
    (b1 b2 : LoginBody) (u : UserRow)
    (he1 : truthyStr b1.email = true) (hp1 : truthyStr b1.password = true)
    (he2 : truthyStr b2.email = true) (hp2 : truthyStr b2.password = true)
    (hmiss : db1.find? (fun x => x.email = b1.email.getD "") = none)
    (hhit : db2.find? (fun x => x.email = b2.email.getD "") = some u)
    (hbad : v2 (b2.password.getD "") u.password = false) :
    login db1 v1 s1 b1 = .err 401 "Invalid credentials" ∧
    login db2 v2 s2 b2 = .err 401 "Invalid credentials" ∧
    login db1 v1 s1 b1 = login db2 v2 s2 b2 := by
  have h1 : login db1 v1 s1 b1 = .err 401 "Invalid credentials" := by
    simp [login, he1, hp1, hmiss]
  have h2 : login db2 v2 s2 b2 = .err 401 "Invalid credentials" := by
    simp [login, he2, hp2, hhit, hbad]
  exact ⟨h1, h2, h1.trans h2.symm⟩

/-- Witness for C7: a run with an unknown email and a run with Alice's email
but a rejected password produce the identical 401 response. -/
theorem login_undifferentiated_witness :
    login ([] : List UserRow) (fun _ _ => false) (fun _ _ _ _ => "t")
      ⟨some "x@x.com", some "p"⟩ = .err 401 "Invalid credentials" ∧
    login [sampleUser] (fun _ _ => false) (fun _ _ _ _ => "t")
      ⟨some "alice@x.com", some "wrong"⟩ = .err 401 "Invalid credentials" ∧
    login ([] : List UserRow) (fun _ _ => false) (fun _ _ _ _ => "t")
      ⟨some "x@x.com", some "p"⟩ =
    login [sampleUser] (fun _ _ => false) (fun _ _ _ _ => "t")
      ⟨some "alice@x.com", some "wrong"⟩ :=
  login_undifferentiated [] [sampleUser] (fun _ _ => false) (fun _ _ => false)
    (fun _ _ _ _ => "t") (fun _ _ _ _ => "t") ⟨some "x@x.com", some "p"⟩
    ⟨some "alice@x.com", some "wrong"⟩ sampleUser (by decide) (by decide)
    (by decide) (by decide) (by decide) (by decide) rfl

/-- Claim C8: every report payload produced by GET /reports, POST /reports
and GET /reports/:id carries the hardcoded constants
`total_registered_students = 50`, `venue = "Room 101"`,
`scheduled_time = "10:00"` and `faculty_name = "Faculty of ICT"`,
independent of any stored data. -/
theorem hardcoded_report_fields (db : List ReportRow) (caller : Caller)
    (classesDb : List ClassRow) (usersDb : List UserRow) (rdb : List ReportRow)
    (newId createdAt : Nat) (body : ReportBody) (reportId : Nat)
    (t : TransformedReport) :
    (t ∈ listReports db caller →
      t.total_registered_students = 50 ∧ t.venue = "Room 101" ∧
      t.scheduled_time = "10:00" ∧ t.faculty_name = "Faculty of ICT") ∧
    (∀ db2, createReport classesDb usersDb rdb newId createdAt caller body =
        (.ok t, db2) →
      t.total_registered_students = 50 ∧ t.venue = "Room 101" ∧
      t.scheduled_time = "10:00" ∧ t.faculty_name = "Faculty of ICT") ∧
    (getReport db caller reportId = .ok t →
      t.total_registered_students = 50 ∧ t.venue = "Room 101" ∧
      t.scheduled_time = "10:00" ∧ t.faculty_name = "Faculty of ICT") := by
  have key : ∀ r : ReportRow,
      (transformReport r).total_registered_students = 50 ∧
      (transformReport r).venue = "Room 101" ∧
      (transformReport r).scheduled_time = "10:00" ∧
      (transformReport r).faculty_name = "Faculty of ICT" :=
    fun r => ⟨rfl, rfl, rfl, rfl⟩
  refine ⟨?_, ?_, ?_⟩
  · intro ht
    simp only [listReports, List.mem_map] at ht
    obtain ⟨r, _, rfl⟩ := ht
    exact key r
  · intro db2 hc
    unfold createReport at hc
    split at hc
    · simp at hc
    · simp only [Prod.mk.injEq, HResult.ok.injEq] at hc
      obtain ⟨h1, _⟩ := hc
      exact h1 ▸ key _
  · intro hg
    unfold getReport at hg
    split at hg
    · simp at hg
    · split at hg
      · simp at hg
      · simp only [HResult.ok.injEq] at hg
        exact hg ▸ key _

/-- Witness for C8: the row listed for lecturer Alice carries the four
hardcoded constants. -/
theorem hardcoded_report_fields_witness :
    (transformReport sampleReportA).total_registered_students = 50 ∧
    (transformReport sampleReportA).venue = "Room 101" ∧
    (transformReport sampleReportA).scheduled_time = "10:00" ∧
    (transformReport sampleReportA).faculty_name = "Faculty of ICT" :=
  (hardcoded_report_fields [sampleReportA] sampleLecturer [] [] [] 0 0
      ⟨some 2, some 3, some "2025-01-02", some "Trees", none, none, some 25⟩ 0
      (transformReport sampleReportA)).1 (by decide)

/-- Claim C9: PUT /classes/:id applies the request body verbatim, so an
authorized caller can overwrite `created_by`; afterwards the stored row
carries the new creator name and any non-"pl" caller whose name differs from
it — the original creator included — is refused update and delete with 403. -/
theorem updateClass_overwrites_created_by (db : List ClassRow)
    (caller caller2 : Caller) (classId : Nat) (c : ClassRow) (p p2 : ClassPatch)
    (newName : String)
    (hex : db.filter (fun x => x.id = classId) = [c])
    (hauth : caller.role = "pl" ∨ c.created_by = caller.name)
    (hp : p.created_by = some newName)
    (h2role : caller2.role ≠ "pl") (h2name : caller2.name ≠ newName) :
    updateClass db caller classId p =
      (.ok (some (applyClassPatch c p)),
        db.map (fun x => if x.id = classId then applyClassPatch x p else x)) ∧
    (applyClassPatch c p).created_by = newName ∧
    (db.map (fun x => if x.id = classId then applyClassPatch x p else x)).filter
        (fun x => x.id = classId) = [applyClassPatch c p] ∧
    updateClass (db.map (fun x => if x.id = classId then applyClassPatch x p else x))
        caller2 classId p2 =
      (.err 403 "Not authorized to edit this class",
        db.map (fun x => if x.id = classId then applyClassPatch x p else x)) ∧
    deleteClass (db.map (fun x => if x.id = classId then applyClassPatch x p else x))
        caller2 classId =
      (.err 403 "Not authorized to delete this class",
        db.map (fun x => if x.id = classId then applyClassPatch x p else x)) := by
  have hcond : ¬(caller.role ≠ "pl" ∧ c.created_by ≠ caller.name) := by
    rintro ⟨ha, hb⟩
    cases hauth with
    | inl h => exact ha h
    | inr h => exact hb h
  have hfilter := filter_id_map_patch db p classId
  rw [hex] at hfilter
  simp only [List.map_cons, List.map_nil] at hfilter
  have hcreated : (applyClassPatch c p).created_by = newName := by
    simp [applyClassPatch, hp]
  have h2name' : (applyClassPatch c p).created_by ≠ caller2.name := by
    rw [hcreated]
    exact fun hh => h2name hh.symm
  refine ⟨?_, hcreated, hfilter, ?_, ?_⟩
  · simp only [updateClass, hex, single_singleton]
    rw [if_neg hcond]
    simp [hfilter]
  · simp only [updateClass, hfilter, single_singleton]
    rw [if_pos ⟨h2role, h2name'⟩]
  · simp only [deleteClass, hfilter, single_singleton]
    rw [if_pos ⟨h2role, h2name'⟩]

/-- Witness for C9: Alice, the creator, sets `created_by` to "Mallory" on her
own class; afterwards Alice herself is refused update and delete with 403. -/
theorem updateClass_overwrites_created_by_witness :
    updateClass [sampleClass] sampleLecturer 4 takeoverPatch =
      (.ok (some (applyClassPatch sampleClass takeoverPatch)),
        [sampleClass].map
          (fun x => if x.id = 4 then applyClassPatch x takeoverPatch else x)) ∧
    (applyClassPatch sampleClass takeoverPatch).created_by = "Mallory" ∧
    ([sampleClass].map
        (fun x => if x.id = 4 then applyClassPatch x takeoverPatch else x)).filter
      (fun x => x.id = 4) = [applyClassPatch sampleClass takeoverPatch] ∧
    updateClass
        ([sampleClass].map
          (fun x => if x.id = 4 then applyClassPatch x takeoverPatch else x))
        sampleLecturer 4 emptyClassPatch =
      (.err 403 "Not authorized to edit this class",
        [sampleClass].map
          (fun x => if x.id = 4 then applyClassPatch x takeoverPatch else x)) ∧
    deleteClass
        ([sampleClass].map
          (fun x => if x.id = 4 then applyClassPatch x takeoverPatch else x))
        sampleLecturer 4 =
      (.err 403 "Not authorized to delete this class",
        [sampleClass].map
          (fun x => if x.id = 4 then applyClassPatch x takeoverPatch else x)) :=
  updateClass_overwrites_created_by [sampleClass] sampleLecturer sampleLecturer 4
    sampleClass takeoverPatch emptyClassPatch "Mallory" (by decide)
    (Or.inr rfl) rfl (by decide) (by decide)

/-- Claim C10: POST /reports validates by JS falsiness, so `week = 0` or
`actual_students = 0` fails with the same 400 validation error as an absent
field, and no row is inserted. -/
theorem createReport_zero_falsy (classesDb : List ClassRow)
    (usersDb : List UserRow) (db : List ReportRow) (newId createdAt : Nat)
    (caller : Caller) (body : ReportBody) :
    (body.week = some 0 →
      createReport classesDb usersDb db newId createdAt caller body =
        (.err 400 "Class, week, date, topic, and actual students are required", db) ∧
      createReport classesDb usersDb db newId createdAt caller
          { body with week := none } =
        (.err 400 "Class, week, date, topic, and actual students are required", db)) ∧
    (body.actual_students = some 0 →
      createReport classesDb usersDb db newId createdAt caller body =
        (.err 400 "Class, week, date, topic, and actual students are required", db) ∧
      createReport classesDb usersDb db newId createdAt caller
          { body with actual_students := none } =
        (.err 400 "Class, week, date, topic, and actual students are required", db)) := by
  constructor
  · intro hw
    constructor
    · simp [createReport, truthyInt, hw]
    · simp [createReport, truthyInt]
  · intro ha
    constructor
    · simp [createReport, truthyInt, ha]
    · simp [createReport, truthyInt]

/-- Witness for C10: a body with `week = 0` but everything else present is
refused with the 400 validation message and nothing is inserted. -/
theorem createReport_zero_falsy_witness :
    createReport ([] : List ClassRow) ([] : List UserRow) ([] : List ReportRow)
        1 0 sampleLecturer
        ⟨some 2, some 0, some "2025-01-02", some "Trees", none, none, some 25⟩ =
      (.err 400 "Class, week, date, topic, and actual students are required", []) ∧
    createReport ([] : List ClassRow) ([] : List UserRow) ([] : List ReportRow)
        1 0 sampleLecturer
        { (⟨some 2, some 0, some "2025-01-02", some "Trees", none, none, some 25⟩ :
            ReportBody) with week := none } =
      (.err 400 "Class, week, date, topic, and actual students are required", []) :=
  (createReport_zero_falsy [] [] [] 1 0 sampleLecturer
    ⟨some 2, some 0, some "2025-01-02", some "Trees", none, none, some 25⟩).1 rfl

end Server
